import Mathlib

/-!
Shallow embedding of the PSP-Linux-Controller relay server
(`src/server/psp_controller_server.py` and `src/server/screen_streamer.py`).

Modelling conventions:
* JSON values decoded by `json.loads` are modelled by `JValue` (arrays are not
  needed by any dispatcher branch that the claims touch, so they are omitted).
* Sockets are identified by natural numbers; `Option Nat` models a possibly-`None`
  socket reference.
* The external environment (network send success, stream-socket bind success,
  portal negotiation success, `time.time()`, `get_local_ip()`) is an explicit
  `Env` record; Python exceptions swallowed by `try/except` become boolean
  outcomes drawn from it.
* Side effects are reified as traces: `xdotool` subprocess invocations
  (`XdoCall`), forwarded/streamed network writes, and shutdown events.
* Python floats are modelled by exact rationals (the constants involved, 0.3,
  0.5, 720 etc., are exactly representable at the granularity the comparisons
  in the code use them).
-/

namespace PSPC

/-- JSON-style value as produced by `json.loads` on a protocol line.
Python `bool` is a subtype of `int`, which matters for numeric comparisons,
so `bool` is kept separate and coerced where the code compares numerically. -/
inductive JValue where
  | null
  | bool (b : Bool)
  | num (q : ℚ)
  | str (s : String)
  | obj (fields : List (String × JValue))

instance : Inhabited JValue := ⟨JValue.null⟩

/-- Field lookup with default: models Python `dict.get(key, default)`. -/
def jget (fields : List (String × JValue)) (key : String) (dflt : JValue) : JValue :=
  (fields.lookup key).getD dflt

/-- Numeric view of a value, for comparisons like `y < -threshold`.
Python numbers order normally; `True`/`False` order as `1`/`0`; every other
type raises `TypeError` (modelled as `none`). -/
def jnum : JValue → Option ℚ
  | .num q => some q
  | .bool b => some (if b then 1 else 0)
  | _ => none

/-- Rendering of a value inside an f-string such as
`f"Unknown button: {button}"`.  Only the top level is rendered; nested
containers are abstracted (no claim depends on their text). -/
def jshow : JValue → String
  | .null => "None"
  | .bool b => if b then "True" else "False"
  | .num q => toString q
  | .str s => s
  | .obj _ => "{...}"

/-- One `xdotool` subprocess invocation issued by `simulate_key`. -/
inductive XdoCall where
  | keydown (key : String)
  | keyup (key : String)
  deriving DecidableEq, Repr

/-- PPSSPP default key mapping (`KEY_MAP` in `psp_controller_server.py`),
in source (= Python dict insertion) order. -/
def KEY_MAP : List (String × String) :=
  [ ("dpad_up", "Up"), ("dpad_down", "Down"),
    ("dpad_left", "Left"), ("dpad_right", "Right"),
    ("x", "z"), ("circle", "x"), ("square", "a"), ("triangle", "s"),
    ("start", "space"), ("select", "v"),
    ("l", "q"), ("r", "w"),
    ("analog_up", "i"), ("analog_down", "k"),
    ("analog_left", "j"), ("analog_right", "l") ]

/-- PSPControllerServer.simulate_key: spawns one `xdotool keydown` on
`action == "press"`, one `xdotool keyup` on `action == "release"`, and
nothing otherwise; returns `True` unless spawning itself raised (spawn
failure is an environment fault outside this model). -/
def simulate_key (key : String) (action : JValue) : List XdoCall × Bool :=
  match action with
  | .str a =>
      if a = "press" then ([XdoCall.keydown key], true)
      else if a = "release" then ([XdoCall.keyup key], true)
      else ([], true)
  | _ => ([], true)

/-- External environment: outcomes of operations the server performs on the
OS/network, which Python surfaces as exceptions or return values. -/
structure Env where
  /-- whether a network send to the given connection succeeds -/
  sendOk : Nat → Bool
  /-- whether binding the streaming server socket succeeds -/
  bindOk : Bool
  /-- whether XDG portal capture negotiation starts successfully -/
  portalOk : Bool
  /-- value of `time.time()` -/
  now : ℚ
  /-- value of `get_local_ip()` -/
  localIp : String

/-- State of a `ScreenStreamer` instance (`screen_streamer.py`).  The frame
buffer, events and threads are capture plumbing irrelevant to the control
protocol; what the relay observes is kept. -/
structure Streamer where
  port : Nat
  streaming : Bool
  /-- viewer sockets accepted on the streaming port -/
  clients : List Nat
  /-- whether `server_socket` is not `None` -/
  server_socket : Bool
  target_width : JValue
  target_height : JValue
  fps : JValue
  quality : JValue
  display_server : String
  capture_method : String
  /-- whether a `PortalScreenCapture` object exists (`portal_capture`) -/
  portal_capture : Bool

/-- ScreenStreamer.__init__ with the given port (the server passes
`control port + 1`); `display_server`/`capture_method` come from environment
detection at startup and are taken as construction parameters. -/
def Streamer.init (port : Nat) (display : String) (method : String) : Streamer :=
  { port := port, streaming := false, clients := [], server_socket := false,
    target_width := .num 720, target_height := .num 1280,
    fps := .num 30, quality := .num 60,
    display_server := display, capture_method := method,
    portal_capture := false }

/-- ScreenStreamer.start: early-returns `True` when already streaming
(touching nothing), otherwise records the parameters, binds the socket,
arranges the ready callback (immediately unless portal capture was started
successfully) and flips `streaming`.  Returns
(new streamer, success, whether the ready callback fired synchronously). -/
def Streamer.start (env : Env) (s : Streamer) (w h f q : JValue) :
    Streamer × Bool × Bool :=
  if s.streaming then (s, true, false)
  else
    let s1 := { s with target_width := w, target_height := h, fps := f, quality := q }
    if env.bindOk then
      if s1.capture_method = "portal" then
        if env.portalOk then
          ({ s1 with streaming := true, server_socket := true, portal_capture := true },
           true, false)
        else
          -- portal failed: fall back to mss and fire the ready callback now
          ({ s1 with streaming := true, server_socket := true,
                     portal_capture := true, capture_method := "mss" },
           true, true)
      else
        ({ s1 with streaming := true, server_socket := true }, true, true)
    else
      -- socket bind raised: parameters were already overwritten, start fails
      (s1, false, false)

/-- ScreenStreamer.stop: no-op unless streaming; otherwise clears the
streaming flag, stops portal capture, closes and forgets all viewer sockets
and the listening socket. -/
def Streamer.stop (s : Streamer) : Streamer :=
  if s.streaming then
    { s with streaming := false, clients := [], server_socket := false }
  else s

/-- ScreenStreamer.get_status response payload. -/
def Streamer.get_status (s : Streamer) : List (String × JValue) :=
  [ ("streaming", .bool s.streaming),
    ("port", .num s.port),
    ("clients", .num s.clients.length),
    ("fps", s.fps),
    ("capture_method", .str s.capture_method),
    ("display_server", .str s.display_server),
    ("portal_ready", .bool false) ]

/-- Mutable state of `PSPControllerServer` (only attributes the control
protocol reads or writes; QR-code display state is untouched by every claim
and omitted). `device_info`, `current_layout` and `android_client` are
attributes created on first use in Python (`hasattr` checks), hence
`Option`-typed here. -/
structure ServerState where
  port : Nat
  running : Bool
  /-- control sockets currently in `self.clients` -/
  clients : List Nat
  /-- whether `server_socket` is not `None` -/
  server_socket : Bool
  /-- `(width, height, density)` as stored by the `device_info` branch -/
  device_info : Option (JValue × JValue × JValue)
  /-- the connection that most recently sent `device_info` (the "primary") -/
  android_client : Option Nat
  current_layout : Option JValue
  pending_stream_client : Option Nat
  pending_stream_params : Option (JValue × JValue)
  screen_streamer : Option Streamer

/-- PSPControllerServer.__init__ (with streaming available, as when
`screen_streamer` imports cleanly). -/
def ServerState.init (port : Nat) (display : String) (method : String) : ServerState :=
  { port := port, running := false, clients := [], server_socket := false,
    device_info := none, android_client := none, current_layout := none,
    pending_stream_client := none, pending_stream_params := none,
    screen_streamer := some (Streamer.init (port + 1) display method) }

/-- A convenient concrete initial state used by witnesses. -/
def st0 : ServerState := ServerState.init 5555 "x11" "mss"

/-- One stripped, non-empty protocol line after `json.loads`: either a decode
failure (`json.JSONDecodeError`) or the decoded value. -/
inductive Input where
  | malformed
  | parsed (v : JValue)

/-- Result of one `handle_command` call: the updated server state, the
response to return to the caller (`none` models Python `None`, meaning the
ready callback will answer later), the `xdotool` invocations performed, and
the network writes made to other sockets — each as
`(target, message, delivered)`, where `delivered` is false when the write
raised and was swallowed. -/
structure DispatchResult where
  state : ServerState
  response : Option JValue
  xdo : List XdoCall
  sends : List (Nat × JValue × Bool)

/-- Response `{'type': 'ack', 'success': b}`. -/
def ack (b : Bool) : JValue :=
  .obj [("type", .str "ack"), ("success", .bool b)]

/-- Response `{'type': 'error', 'message': msg}`. -/
def errResp (msg : String) : JValue :=
  .obj [("type", .str "error"), ("message", .str msg)]

/-- Response `{'type': 'stream_error', 'message': msg}`. -/
def streamErr (msg : String) : JValue :=
  .obj [("type", .str "stream_error"), ("message", .str msg)]

/-- PSPControllerServer._on_stream_ready: when both a pending client and
pending parameters exist, build the `stream_start` message, try to send it to
the pending client, and clear the pending slots (also when the send fails). -/
def on_stream_ready (env : Env) (st : ServerState) :
    ServerState × List (Nat × JValue × Bool) :=
  match st.pending_stream_client, st.pending_stream_params with
  | some c, some (w, h) =>
      let streamPort := st.port + 1
      let msg : JValue := .obj
        [ ("type", .str "stream_start"),
          ("url", .str ("http://" ++ env.localIp ++ ":" ++ toString streamPort)),
          ("port", .num streamPort),
          ("width", w), ("height", h) ]
      ({ st with pending_stream_client := none, pending_stream_params := none },
       [(c, msg, env.sendOk c)])
  | _, _ => (st, [])

/-- The `analog` branch's press phase: presses after the four releases,
determined per axis by the 0.3 deadzone (`y` first, then `x`, mirroring the
statement order in the source). -/
def analog_presses (x y : ℚ) : List XdoCall :=
  (if y < -(3/10) then [XdoCall.keydown "i"]
   else if y > 3/10 then [XdoCall.keydown "k"] else []) ++
  (if x < -(3/10) then [XdoCall.keydown "j"]
   else if x > 3/10 then [XdoCall.keydown "l"] else [])

/-- The `analog` branch's release phase: `for key in ['i','k','j','l']:
simulate_key(key, 'release')`. -/
def analog_releases : List XdoCall :=
  [XdoCall.keyup "i", XdoCall.keyup "k", XdoCall.keyup "j", XdoCall.keyup "l"]

/-- Dispatch of one successfully decoded object command: the
`cmd_type == ...` chain of `PSPControllerServer.handle_command`. -/
def dispatch_obj (env : Env) (st : ServerState) (sock : Option Nat)
    (fields : List (String × JValue)) : DispatchResult :=
  match jget fields "type" .null with
  | .str "ping" =>
      ⟨st, some (.obj [("type", .str "pong"), ("timestamp", .num env.now)]), [], []⟩
  | .str "button" =>
      let button := jget fields "button" .null
      let action := jget fields "action" .null
      match button with
      | .str b =>
          match KEY_MAP.lookup b with
          | some key =>
              let (calls, success) := simulate_key key action
              ⟨st, some (ack success), calls, []⟩
          | none => ⟨st, some (errResp ("Unknown button: " ++ b)), [], []⟩
      | .obj _ =>
          -- `button in KEY_MAP` on an unhashable value raises TypeError,
          -- caught by the generic handler, which answers with `str(e)`
          ⟨st, some (errResp "TypeError: unhashable type"), [], []⟩
      | other => ⟨st, some (errResp ("Unknown button: " ++ jshow other)), [], []⟩
  | .str "analog" =>
      match jnum (jget fields "x" (.num 0)), jnum (jget fields "y" (.num 0)) with
      | some x, some y =>
          ⟨st, some (ack true), analog_releases ++ analog_presses x y, []⟩
      | _, _ =>
          -- the releases already ran; comparing a non-number raises
          -- TypeError, caught by the generic handler
          ⟨st, some (errResp "TypeError: unorderable types"), analog_releases, []⟩
  | .str "device_info" =>
      let info := (jget fields "width" (.num 1920),
                   jget fields "height" (.num 1080),
                   jget fields "density" (.num (11/4)))
      let st1 := { st with device_info := some info }
      let st2 := match sock with
                 | some c => { st1 with android_client := some c }
                 | none => st1
      ⟨st2, some (ack true), [], []⟩
  | .str "get_device_info" =>
      match st.device_info with
      | some (w, h, d) =>
          ⟨st, some (.obj [("type", .str "device_info"),
                           ("width", w), ("height", h), ("density", d)]), [], []⟩
      | none =>
          ⟨st, some (.obj [("type", .str "device_info"),
                           ("width", .num 1920), ("height", .num 1080),
                           ("density", .num (11/4))]), [], []⟩
  | .str "get_layout" =>
      match st.current_layout with
      | some l => ⟨st, some (.obj [("type", .str "layout"), ("controls", l)]), [], []⟩
      | none => ⟨st, some (.obj [("type", .str "layout"), ("controls", .obj [])]), [], []⟩
  | .str "current_layout" =>
      ⟨{ st with current_layout := some (jget fields "controls" (.obj [])) },
       some (ack true), [], []⟩
  | .str "layout_update" =>
      ⟨{ st with current_layout := some (jget fields "layout" (.obj [])) },
       some (ack true), [], []⟩
  | .str "layout_preview" =>
      match st.android_client with
      | some p => ⟨st, some (ack true), [], [(p, .obj fields, env.sendOk p)]⟩
      | none => ⟨st, some (ack true), [], []⟩
  | .str "set_layout" =>
      let layout := jget fields "layout" (.obj [])
      let st1 := { st with current_layout := some layout }
      match st1.android_client with
      | some p =>
          ⟨st1, some (ack true), [],
           [(p, .obj [("type", .str "set_layout"), ("layout", layout)], env.sendOk p)]⟩
      | none => ⟨st1, some (ack true), [], []⟩
  | .str "request_stream" =>
      match st.screen_streamer with
      | none => ⟨st, some (streamErr "Streaming not available"), [], []⟩
      | some s =>
          let w := jget fields "width" (.num 720)
          let h := jget fields "height" (.num 1280)
          let f := jget fields "fps" (.num 30)
          let q := jget fields "quality" (.num 60)
          -- pending client and params are stored BEFORE the streamer starts
          let st1 := { st with pending_stream_client := sock,
                               pending_stream_params := some (w, h) }
          let (s1, success, readyFired) := Streamer.start env s w h f q
          let st2 := { st1 with screen_streamer := some s1 }
          if success then
            let (st3, sends) :=
              if readyFired then on_stream_ready env st2 else (st2, [])
            ⟨st3, none, [], sends⟩
          else
            ⟨{ st2 with pending_stream_client := none, pending_stream_params := none },
             some (streamErr "Failed to start stream"), [], []⟩
  | .str "stop_stream" =>
      let st1 := { st with screen_streamer := st.screen_streamer.map Streamer.stop }
      ⟨st1, some (.obj [("type", .str "stream_stop"), ("success", .bool true)]), [], []⟩
  | .str "refresh_stream" =>
      -- refresh_window is a no-op in the source
      ⟨st, some (ack true), [], []⟩
  | .str "stream_status" =>
      match st.screen_streamer with
      | some s =>
          ⟨st, some (.obj (("type", .str "stream_status") :: s.get_status)), [], []⟩
      | none =>
          ⟨st, some (.obj [("type", .str "stream_status"),
                           ("streaming", .bool false),
                           ("available", .bool false)]), [], []⟩
  | other =>
      ⟨st, some (errResp ("Unknown command type: " ++ jshow other)), [], []⟩

/-- PSPControllerServer.handle_command on one input line: a decode failure is
answered with `{'type':'error','message':'Invalid JSON'}`; a decoded
non-object raises `AttributeError` at `command.get`, answered by the generic
handler with `str(e)`; a decoded object is dispatched on its `type` field. -/
def handle_command (env : Env) (st : ServerState) (sock : Option Nat) :
    Input → DispatchResult
  | .malformed => ⟨st, some (errResp "Invalid JSON"), [], []⟩
  | .parsed (.obj fields) => dispatch_obj env st sock fields
  | .parsed _ =>
      ⟨st, some (errResp "AttributeError: no attribute get"), [], []⟩

/-- PSPControllerServer.handle_client read loop, applied to the sequence of
stripped non-empty lines the connection delivers before EOF.  Each line is
dispatched; when a response exists it is sent back on the same socket — a
failed response send raises and breaks the loop; a `None` response sends
nothing.  Returns the final state, the responses actually written back, and
the accumulated side-effect traces. -/
def read_loop (env : Env) (sock : Nat) :
    ServerState → List Input →
    ServerState × List (Nat × JValue) × List XdoCall × List (Nat × JValue × Bool)
  | st, [] => (st, [], [], [])
  | st, line :: rest =>
      let r := handle_command env st (some sock) line
      match r.response with
      | some resp =>
          if env.sendOk sock then
            let (st1, outs, xdo, sends) := read_loop env sock r.state rest
            (st1, (sock, resp) :: outs, r.xdo ++ xdo, r.sends ++ sends)
          else
            -- send raised: the except branch breaks out of the loop
            (r.state, [], r.xdo, r.sends)
      | none =>
          let (st1, outs, xdo, sends) := read_loop env sock r.state rest
          (st1, outs, r.xdo ++ xdo, r.sends ++ sends)

/-- The `finally` block of PSPControllerServer.handle_client, run when a
connection's handler terminates (EOF, read error, or explicit close): it
stops the stream and clears the pending-stream slots when this client was the
pending requester OR the streamer is currently streaming (the Python
condition `pending == sock or streamer and streamer.streaming` groups as
`pending == sock or (streamer and streamer.streaming)`), then removes the
socket from the live-client list and closes it.  It does not touch
`android_client`. -/
def client_cleanup (st : ServerState) (sock : Nat) : ServerState :=
  let streamingNow := match st.screen_streamer with
                      | some s => s.streaming
                      | none => false
  let st1 :=
    if st.pending_stream_client = some sock ∨ streamingNow = true then
      { st with screen_streamer := st.screen_streamer.map Streamer.stop,
                pending_stream_client := none,
                pending_stream_params := none }
    else st
  { st1 with clients := st1.clients.erase sock }

/-- One event of the shutdown sequence of PSPControllerServer.stop. -/
inductive StopEvent where
  | closeClient (c : Nat)
  | closeServer
  | xdo (c : XdoCall)
  deriving DecidableEq, Repr

/-- PSPControllerServer.stop: clears `running`, closes every client socket
and empties the client list, closes the listening socket if present, and
finally calls `simulate_key(key, 'release')` for every value of `KEY_MAP`
(in that source order).  QR-code teardown involves no sockets and no key
injection and is elided.  Returns the new state and the event trace in
execution order. -/
def server_stop (st : ServerState) : ServerState × List StopEvent :=
  let closeClients := st.clients.map StopEvent.closeClient
  let closeServer := if st.server_socket then [StopEvent.closeServer] else []
  let releases := KEY_MAP.map (fun kv => StopEvent.xdo (XdoCall.keyup kv.2))
  ({ st with running := false, clients := [] },
   closeClients ++ closeServer ++ releases)

/-! Concrete protocol lines and server states used to instantiate the
theorems below on closed inputs. -/

/-- An `analog` command with numeric coordinates. -/
def analogCmd (x y : ℚ) : Input :=
  .parsed (.obj [("type", .str "analog"), ("x", .num x), ("y", .num y)])

/-- A `button` command with a string action. -/
def buttonCmd (b a : String) : Input :=
  .parsed (.obj [("type", .str "button"), ("button", .str b), ("action", .str a)])

/-- A `request_stream` command with no explicit parameters (all defaulted). -/
def reqStreamCmd : Input :=
  .parsed (.obj [("type", .str "request_stream")])

/-- A `layout_preview` command as the desktop editor sends it. -/
def previewFields : List (String × JValue) :=
  [("type", .str "layout_preview"), ("control", .str "dpad_up"), ("x", .num (1/2))]

/-- A server state in which a stream is active: the streamer is streaming and
connection 0 is the recorded pending requester. -/
def busySt : ServerState :=
  { st0 with
    clients := [0, 1],
    pending_stream_client := some 0,
    pending_stream_params := some (.num 720, .num 1280),
    screen_streamer :=
      some { Streamer.init 5556 "x11" "mss" with
             streaming := true, server_socket := true } }

/-- A server state in which connection 5 is the primary (it sent
`device_info`) and is the only live client. -/
def primarySt : ServerState :=
  { st0 with android_client := some 5, clients := [5] }

/-- A server state with one live client and a bound listening socket, about
to be shut down. -/
def stopSt : ServerState :=
  { st0 with running := true, clients := [0], server_socket := true }

/-- A server state where the stream is active, client 3 is the pending
requester, client 4 is the primary, and client 7 is an unrelated viewer of
the control protocol. -/
def streamSt : ServerState :=
  { st0 with
    clients := [3, 4, 7],
    android_client := some 4,
    pending_stream_client := some 3,
    pending_stream_params := some (.num 360, .num 640),
    screen_streamer :=
      some { Streamer.init 5556 "x11" "mss" with
             streaming := true, server_socket := true, clients := [9] } }

/-- A concrete benign environment used by witnesses. -/
def env0 : Env :=
  { sendOk := fun _ => true, bindOk := true, portalOk := true,
    now := 0, localIp := "127.0.0.1" }

/-! Theorems.  Each claim of the specification is settled by one theorem
below (with a closed counterexample where the claim fails on the code). -/

/-- Helper: dispatching a `button` command whose button id is in `KEY_MAP`
leaves the state unchanged, answers `ack` with `simulate_key`'s result, and
performs exactly the `simulate_key` calls for the mapped key. -/
theorem handle_button_known (env : Env) (st : ServerState) (sock : Option Nat)
    (b key : String) (action : JValue) (hb : KEY_MAP.lookup b = some key) :
    handle_command env st sock
      (.parsed (.obj [("type", .str "button"), ("button", .str b), ("action", action)])) =
    ⟨st, some (ack (simulate_key key action).2), (simulate_key key action).1, []⟩ := by
  calc handle_command env st sock
        (.parsed (.obj [("type", .str "button"), ("button", .str b), ("action", action)]))
      = (match KEY_MAP.lookup b with
         | some k =>
             (⟨st, some (ack (simulate_key k action).2),
               (simulate_key k action).1, []⟩ : DispatchResult)
         | none => ⟨st, some (errResp ("Unknown button: " ++ b)), [], []⟩) := rfl
    _ = ⟨st, some (ack (simulate_key key action).2),
          (simulate_key key action).1, []⟩ := by rw [hb]

/-- Helper: dispatching a `button` command whose (string) button id is not in
`KEY_MAP` makes no injector call, changes nothing, and answers with an
`error` response. -/
theorem handle_button_unknown (env : Env) (st : ServerState) (sock : Option Nat)
    (b : String) (action : JValue) (hb : KEY_MAP.lookup b = none) :
    handle_command env st sock
      (.parsed (.obj [("type", .str "button"), ("button", .str b), ("action", action)])) =
    ⟨st, some (errResp ("Unknown button: " ++ b)), [], []⟩ := by
  calc handle_command env st sock
        (.parsed (.obj [("type", .str "button"), ("button", .str b), ("action", action)]))
      = (match KEY_MAP.lookup b with
         | some k =>
             (⟨st, some (ack (simulate_key k action).2),
               (simulate_key k action).1, []⟩ : DispatchResult)
         | none => ⟨st, some (errResp ("Unknown button: " ++ b)), [], []⟩) := rfl
    _ = ⟨st, some (errResp ("Unknown button: " ++ b)), [], []⟩ := by rw [hb]

/-- C6: for every `button` command whose button id is in the key map and
whose action is a protocol action (`press` or `release`), exactly one
injector call is made, with the mapped key and the given action, and the
response is an ack — so `press` then `release` for the same button yields
exactly two injector calls with the same mapped key, in that order; for a
button id not in the key map the injector is never called and the response
is always an `error` response. -/
theorem C6_button (env : Env) (st : ServerState) (sock : Option Nat)
    (b key : String) (hb : KEY_MAP.lookup b = some key) :
    (handle_command env st sock (buttonCmd b "press")).xdo = [XdoCall.keydown key] ∧
    (handle_command env st sock (buttonCmd b "press")).response = some (ack true) ∧
    (handle_command env st sock (buttonCmd b "release")).xdo = [XdoCall.keyup key] ∧
    (handle_command env st sock (buttonCmd b "release")).response = some (ack true) ∧
    (handle_command env st sock (buttonCmd b "press")).xdo ++
      (handle_command env (handle_command env st sock (buttonCmd b "press")).state sock
        (buttonCmd b "release")).xdo = [XdoCall.keydown key, XdoCall.keyup key] ∧
    (∀ b2 : String, KEY_MAP.lookup b2 = none → ∀ action : JValue,
      (handle_command env st sock (.parsed (.obj
        [("type", .str "button"), ("button", .str b2), ("action", action)]))).xdo = [] ∧
      ∃ m, (handle_command env st sock (.parsed (.obj
        [("type", .str "button"), ("button", .str b2), ("action", action)]))).response =
          some (errResp m)) := by
  have hp := handle_button_known env st sock b key (.str "press") hb
  have hr := handle_button_known env st sock b key (.str "release") hb
  have hsp : simulate_key key (.str "press") = ([XdoCall.keydown key], true) := rfl
  have hsr : simulate_key key (.str "release") = ([XdoCall.keyup key], true) := rfl
  refine ⟨?_, ?_, ?_, ?_, ?_, ?_⟩
  · show (handle_command env st sock (.parsed (.obj
      [("type", .str "button"), ("button", .str b), ("action", .str "press")]))).xdo = _
    rw [hp, hsp]
  · show (handle_command env st sock (.parsed (.obj
      [("type", .str "button"), ("button", .str b), ("action", .str "press")]))).response = _
    rw [hp, hsp]
  · show (handle_command env st sock (.parsed (.obj
      [("type", .str "button"), ("button", .str b), ("action", .str "release")]))).xdo = _
    rw [hr, hsr]
  · show (handle_command env st sock (.parsed (.obj
      [("type", .str "button"), ("button", .str b), ("action", .str "release")]))).response = _
    rw [hr, hsr]
  · show (handle_command env st sock (.parsed (.obj
      [("type", .str "button"), ("button", .str b), ("action", .str "press")]))).xdo ++
      (handle_command env (handle_command env st sock (.parsed (.obj
        [("type", .str "button"), ("button", .str b), ("action", .str "press")]))).state sock
        (.parsed (.obj
          [("type", .str "button"), ("button", .str b), ("action", .str "release")]))).xdo = _
    rw [hp, hsp, hr, hsr]; rfl
  · intro b2 hb2 action
    have hu := handle_button_unknown env st sock b2 action hb2
    exact ⟨by rw [hu], ⟨"Unknown button: " ++ b2, by rw [hu]⟩⟩

/-- Witness for C6 at the concrete button `"x"` (mapped to key `"z"`). -/
theorem C6_button_witness :
    (handle_command env0 st0 none (buttonCmd "x" "press")).xdo = [XdoCall.keydown "z"] ∧
    (handle_command env0 st0 none (buttonCmd "x" "press")).response = some (ack true) := by
  have h := C6_button env0 st0 none "x" "z" (by decide)
  exact ⟨h.1, h.2.1⟩

/-- C10: a `button` command whose button id is mapped but whose action is
neither `"press"` nor `"release"` makes no injector call, yet is still
answered with `{'type':'ack','success':true}` (the key-simulation helper
silently succeeds on unrecognized actions). -/
theorem C10_button_unknown_action (env : Env) (st : ServerState) (sock : Option Nat)
    (b key : String) (action : JValue) (hb : KEY_MAP.lookup b = some key)
    (h1 : action ≠ .str "press") (h2 : action ≠ .str "release") :
    handle_command env st sock (.parsed (.obj
      [("type", .str "button"), ("button", .str b), ("action", action)])) =
    ⟨st, some (ack true), [], []⟩ := by
  rw [handle_button_known env st sock b key action hb]
  have hsim : simulate_key key action = ([], true) := by
    cases action with
    | str a =>
        have ha1 : a ≠ "press" := by
          intro h; exact h1 (by rw [h])
        have ha2 : a ≠ "release" := by
          intro h; exact h2 (by rw [h])
        simp [simulate_key, ha1, ha2]
    | null => rfl
    | bool b => rfl
    | num q => rfl
    | obj fs => rfl
  rw [hsim]

/-- Witness for C10 at button `"circle"` (mapped to `"x"`) with the
non-protocol action `"tap"`. -/
theorem C10_button_unknown_action_witness :
    handle_command env0 st0 none (.parsed (.obj
      [("type", .str "button"), ("button", .str "circle"), ("action", .str "tap")])) =
    ⟨st0, some (ack true), [], []⟩ := by
  refine C10_button_unknown_action env0 st0 none "circle" "x" (.str "tap") (by decide) ?_ ?_
  · intro h; injection h with h; exact absurd h (by decide)
  · intro h; injection h with h; exact absurd h (by decide)

/-- Helper: dispatching an `analog` command with numeric coordinates leaves
the state unchanged, always acks with success, and performs the four
directional releases followed by the deadzone-determined presses. -/
theorem handle_analog (env : Env) (st : ServerState) (sock : Option Nat) (x y : ℚ) :
    handle_command env st sock (analogCmd x y) =
    ⟨st, some (ack true), analog_releases ++ analog_presses x y, []⟩ := rfl

/-- C5: every `analog` command first releases all four directional keys and
then presses keys determined axis-independently by the 0.3 deadzone, always
answering `ack(success=true)`; in particular `|x| ≤ 0.3 ∧ |y| ≤ 0.3` gives
four releases and no press, `x = 0.5, y = 0` gives one press of the
positive-x ("right") key, and `x = y = -0.5` gives exactly two presses, one
of the up key and one of the left key. -/
theorem C5_analog (env : Env) (st : ServerState) (sock : Option Nat) (x y : ℚ) :
    handle_command env st sock (analogCmd x y) =
      ⟨st, some (ack true), analog_releases ++ analog_presses x y, []⟩ ∧
    (|x| ≤ 3/10 → |y| ≤ 3/10 → analog_presses x y = []) ∧
    analog_presses (1/2) 0 = [XdoCall.keydown "l"] ∧
    (analog_presses (-(1/2)) (-(1/2))).length = 2 ∧
    XdoCall.keydown "i" ∈ analog_presses (-(1/2)) (-(1/2)) ∧
    XdoCall.keydown "j" ∈ analog_presses (-(1/2)) (-(1/2)) := by
  have hright : analog_presses (1/2) 0 = [XdoCall.keydown "l"] := by
    norm_num [analog_presses]
  have hdiag : analog_presses (-(1/2)) (-(1/2)) =
      [XdoCall.keydown "i", XdoCall.keydown "j"] := by
    norm_num [analog_presses]
  refine ⟨handle_analog env st sock x y, ?_, hright,
    by rw [hdiag]; rfl, by rw [hdiag]; simp, by rw [hdiag]; simp⟩
  intro hx hy
  obtain ⟨hx1, hx2⟩ := abs_le.mp hx
  obtain ⟨hy1, hy2⟩ := abs_le.mp hy
  have cy1 : ¬(y < -(3/10)) := by linarith
  have cy2 : ¬(y > 3/10) := by linarith
  have cx1 : ¬(x < -(3/10)) := by linarith
  have cx2 : ¬(x > 3/10) := by linarith
  simp [analog_presses, cx1, cx2, cy1, cy2]

/-- Witness for C5 at the neutral position `x = y = 0`. -/
theorem C5_analog_witness :
    handle_command env0 st0 none (analogCmd 0 0) =
      ⟨st0, some (ack true), analog_releases ++ analog_presses 0 0, []⟩ ∧
    analog_presses 0 0 = [] := by
  have h := C5_analog env0 st0 none 0 0
  exact ⟨h.1, h.2.1 (by norm_num) (by norm_num)⟩

/-- C7: a `layout_preview` command is forwarded verbatim (same fields) to the
primary connection when one is registered, and forwarded nowhere otherwise;
in both cases — and whatever the outcome of the forwarding write, which the
arbitrary `env` controls — the sender is answered `ack(success=true)` and
the state is unchanged. -/
theorem C7_layout_preview (env : Env) (st : ServerState) (sock : Option Nat)
    (fields : List (String × JValue))
    (hty : jget fields "type" .null = .str "layout_preview") :
    (st.android_client = none →
      handle_command env st sock (.parsed (.obj fields)) =
        ⟨st, some (ack true), [], []⟩) ∧
    (∀ p, st.android_client = some p →
      handle_command env st sock (.parsed (.obj fields)) =
        ⟨st, some (ack true), [], [(p, .obj fields, env.sendOk p)]⟩) := by
  have base : handle_command env st sock (.parsed (.obj fields)) =
      (match st.android_client with
       | some p =>
           (⟨st, some (ack true), [], [(p, .obj fields, env.sendOk p)]⟩ : DispatchResult)
       | none => ⟨st, some (ack true), [], []⟩) := by
    show dispatch_obj env st sock fields = _
    unfold dispatch_obj
    rw [hty]
    rfl
  constructor
  · intro h; rw [base, h]
  · intro p h; rw [base, h]

/-- Witness for C7: a concrete preview command with primary connection 5
registered, and the same command with no primary registered. -/
theorem C7_layout_preview_witness :
    handle_command env0 primarySt (some 7) (.parsed (.obj previewFields)) =
      ⟨primarySt, some (ack true), [], [(5, .obj previewFields, true)]⟩ ∧
    handle_command env0 st0 (some 7) (.parsed (.obj previewFields)) =
      ⟨st0, some (ack true), [], []⟩ := by
  have h1 := (C7_layout_preview env0 primarySt (some 7) previewFields rfl).2 5 rfl
  have h2 := (C7_layout_preview env0 st0 (some 7) previewFields rfl).1 rfl
  exact ⟨h1, h2⟩

/-- C8: `set_layout(L)` immediately followed by `get_layout`, with no other
writer in between, answers a `layout` response whose controls are exactly
`L`; and a `get_layout` on a freshly constructed server (no layout ever set)
answers an empty controls map. -/
theorem C8_set_get_layout (env1 env2 : Env) (st : ServerState)
    (sock1 sock2 : Option Nat) (L : JValue) (p : Nat) (d m : String) :
    (handle_command env2
        (handle_command env1 st sock1 (.parsed (.obj
          [("type", .str "set_layout"), ("layout", L)]))).state
        sock2 (.parsed (.obj [("type", .str "get_layout")]))).response =
      some (.obj [("type", .str "layout"), ("controls", L)]) ∧
    (handle_command env2 (ServerState.init p d m) sock2
        (.parsed (.obj [("type", .str "get_layout")]))).response =
      some (.obj [("type", .str "layout"), ("controls", .obj [])]) := by
  obtain ⟨prt, run, cls, ssk, dev, acl, clay, pc, pp, scr⟩ := st
  constructor
  · cases acl <;> rfl
  · rfl

/-- C1 counterexample: with the streamer already streaming (state `busySt`,
whose pending requester is connection 0), a `request_stream` from connection
1 is NOT answered with `stream_error` — the dispatcher returns no response at
all — and the session state is NOT left unchanged: the pending-stream
requester is overwritten from connection 0 to connection 1. -/
theorem C1_counterexample :
    (handle_command env0 busySt (some 1) reqStreamCmd).response = none ∧
    busySt.pending_stream_client = some 0 ∧
    (handle_command env0 busySt (some 1) reqStreamCmd).state.pending_stream_client =
      some 1 := ⟨rfl, rfl, rfl⟩

/-- C1 (amended): a `request_stream` received while the streamer is already
streaming yields no response (nothing is written back and no `stream_error`
is produced), overwrites the pending-stream requester and parameters with
the new requester's, and leaves the streamer — including its
width/height/fps/quality — untouched. -/
theorem C1_busy_request_stream (env : Env) (st : ServerState) (sock : Option Nat)
    (s : Streamer) (w h f q : JValue)
    (hs : st.screen_streamer = some s) (hstr : s.streaming = true) :
    handle_command env st sock (.parsed (.obj
      [("type", .str "request_stream"), ("width", w), ("height", h),
       ("fps", f), ("quality", q)])) =
    ⟨{ st with pending_stream_client := sock, pending_stream_params := some (w, h) },
     none, [], []⟩ := by
  obtain ⟨prt, run, cls, ssk, dev, acl, clay, pc, pp, scr⟩ := st
  obtain ⟨sprt, sstr, scls, sssk, tw, th, sfps, sq, disp, meth, pcap⟩ := s
  simp only at hs hstr
  subst hs
  subst hstr
  rfl

/-- Witness for the amended C1 at the concrete busy state `busySt`. -/
theorem C1_busy_request_stream_witness :
    handle_command env0 busySt (some 1) (.parsed (.obj
      [("type", .str "request_stream"), ("width", .num 360), ("height", .num 640),
       ("fps", .num 24), ("quality", .num 50)])) =
    ⟨{ busySt with pending_stream_client := some 1,
                   pending_stream_params := some (.num 360, .num 640) },
     none, [], []⟩ :=
  C1_busy_request_stream env0 busySt (some 1)
    { Streamer.init 5556 "x11" "mss" with streaming := true, server_socket := true }
    (.num 360) (.num 640) (.num 24) (.num 50) rfl rfl

/-- C2 counterexample: connection 5 is the primary and its handler
terminates; afterwards the primary reference still points to the
now-removed connection 5 (it is not cleared), and a later `layout_preview`
from another connection still attempts to forward to connection 5 instead of
being a no-op. -/
theorem C2_counterexample :
    (client_cleanup primarySt 5).android_client = some 5 ∧
    (client_cleanup primarySt 5).clients = [] ∧
    (handle_command env0 (client_cleanup primarySt 5) (some 7)
        (.parsed (.obj previewFields))).sends =
      [(5, .obj previewFields, true)] := ⟨rfl, rfl, rfl⟩

/-- C2 (amended): when a connection handler terminates, the primary
reference (`android_client`) is never cleared — it is preserved verbatim, so
it may keep pointing at a closed connection, and subsequent
`layout_preview`/`set_layout` commands still attempt to forward to it (the
failed writes being swallowed) until a new `device_info` overwrites it. -/
theorem C2_cleanup_preserves_primary (st : ServerState) (sock : Nat) :
    (client_cleanup st sock).android_client = st.android_client := by
  simp only [client_cleanup]
  split <;> rfl

/-- C3 counterexample: a line that is not valid JSON is answered with
message `"Invalid JSON"`, which differs from the specified
`"Invalid input"`. -/
theorem C3_counterexample :
    (handle_command env0 st0 (some 0) Input.malformed).response =
      some (errResp "Invalid JSON") ∧
    (handle_command env0 st0 (some 0) Input.malformed).response ≠
      some (errResp "Invalid input") := by
  refine ⟨rfl, ?_⟩
  intro hcontra
  have h1 : some (errResp "Invalid JSON") = some (errResp "Invalid input") := by
    rw [← hcontra]; rfl
  have h2 : errResp "Invalid JSON" = errResp "Invalid input" := Option.some.inj h1
  simp [errResp] at h2

/-- C3 (amended): an undecodable input line is answered on the same
connection with `{'type':'error','message':'Invalid JSON'}`, the server
state is unchanged by it, no injector call or forward happens, and the read
loop continues processing the subsequent lines of the same connection. -/
theorem C3_invalid_json (env : Env) (st : ServerState) (sock : Nat)
    (rest : List Input) (hsend : env.sendOk sock = true) :
    read_loop env sock st (Input.malformed :: rest) =
      ((read_loop env sock st rest).1,
       (sock, errResp "Invalid JSON") :: (read_loop env sock st rest).2.1,
       (read_loop env sock st rest).2.2.1,
       (read_loop env sock st rest).2.2.2) := by
  simp only [read_loop, handle_command, hsend]
  simp

/-- Witness for the amended C3: one malformed line then EOF. -/
theorem C3_invalid_json_witness :
    read_loop env0 0 st0 [Input.malformed] =
      (st0, [(0, errResp "Invalid JSON")], [], []) :=
  (C3_invalid_json env0 st0 0 [] rfl).trans rfl

/-- C4 counterexample: stopping the server with one live client and a bound
listening socket closes the client socket and the listening socket FIRST and
only then releases the mapped keys — not releases first as claimed. -/
theorem C4_counterexample :
    (server_stop stopSt).2 =
      [StopEvent.closeClient 0, StopEvent.closeServer] ++
        KEY_MAP.map (fun kv => StopEvent.xdo (XdoCall.keyup kv.2)) ∧
    (server_stop stopSt).2 ≠
      KEY_MAP.map (fun kv => StopEvent.xdo (XdoCall.keyup kv.2)) ++
        [StopEvent.closeClient 0, StopEvent.closeServer] := by
  refine ⟨rfl, ?_⟩
  decide

/-- C4 (amended): on server stop, every mapped key does get a release
injector call, but these releases all come AFTER the socket closes: the
shutdown trace is the socket-close events (all client sockets, then the
listening socket, none of them an injector call) followed by exactly one
release per `KEY_MAP` entry. -/
theorem C4_stop_order (st : ServerState) :
    ∃ closes,
      (server_stop st).2 =
        closes ++ KEY_MAP.map (fun kv => StopEvent.xdo (XdoCall.keyup kv.2)) ∧
      (∀ e ∈ closes, ∀ c : XdoCall, e ≠ StopEvent.xdo c) ∧
      (∀ c ∈ st.clients, StopEvent.closeClient c ∈ closes) ∧
      (st.server_socket = true → StopEvent.closeServer ∈ closes) := by
  refine ⟨st.clients.map StopEvent.closeClient ++
      (if st.server_socket then [StopEvent.closeServer] else []), rfl, ?_, ?_, ?_⟩
  · intro e he c
    rcases List.mem_append.mp he with h | h
    · rcases List.mem_map.mp h with ⟨a, _, rfl⟩
      intro hcon; cases hcon
    · split at h
      · rcases List.mem_singleton.mp h with rfl
        intro hcon; cases hcon
      · cases h
  · intro c hc
    exact List.mem_append.mpr (Or.inl (List.mem_map_of_mem _ hc))
  · intro hs
    rw [if_pos hs]
    exact List.mem_append.mpr (Or.inr (List.mem_singleton.mpr rfl))

/-- Witness for the amended C4 at the concrete state `stopSt`. -/
theorem C4_stop_order_witness :
    ∃ closes,
      (server_stop stopSt).2 =
        closes ++ KEY_MAP.map (fun kv => StopEvent.xdo (XdoCall.keyup kv.2)) ∧
      (∀ e ∈ closes, ∀ c : XdoCall, e ≠ StopEvent.xdo c) ∧
      (∀ c ∈ stopSt.clients, StopEvent.closeClient c ∈ closes) ∧
      (stopSt.server_socket = true → StopEvent.closeServer ∈ closes) :=
  C4_stop_order stopSt

/-- C9: whenever a control connection's handler terminates while the screen
stream is active, the cleanup stops the streamer and clears both
pending-stream slots — for ANY terminating socket, including one that is
neither the stream requester nor the primary. -/
theorem C9_any_disconnect_stops_stream (st : ServerState) (sock : Nat) (s : Streamer)
    (hs : st.screen_streamer = some s) (hstr : s.streaming = true) :
    (client_cleanup st sock).pending_stream_client = none ∧
    (client_cleanup st sock).pending_stream_params = none ∧
    (client_cleanup st sock).screen_streamer = some (Streamer.stop s) ∧
    (Streamer.stop s).streaming = false := by
  refine ⟨?_, ?_, ?_, ?_⟩ <;>
    simp [client_cleanup, Streamer.stop, hs, hstr]

/-- Witness for C9: connection 7 disconnects while the stream is active even
though the pending requester is connection 3 and the primary is connection
4. -/
theorem C9_any_disconnect_stops_stream_witness :
    (client_cleanup streamSt 7).pending_stream_client = none ∧
    (client_cleanup streamSt 7).pending_stream_params = none ∧
    (client_cleanup streamSt 7).screen_streamer =
      some (Streamer.stop { Streamer.init 5556 "x11" "mss" with
        streaming := true, server_socket := true, clients := [9] }) ∧
    (Streamer.stop { Streamer.init 5556 "x11" "mss" with
        streaming := true, server_socket := true, clients := [9] }).streaming = false :=
  C9_any_disconnect_stops_stream streamSt 7
    { Streamer.init 5556 "x11" "mss" with
      streaming := true, server_socket := true, clients := [9] } rfl rfl

end PSPC
